import Mathlib

/-!
Verification development for the siyuan-karakeep sync plugin.

The TypeScript source is shallowly embedded into Lean: pure string
manipulation (path sanitization, title derivation, URL handling) becomes
pure Lean functions over `String`/`List Char`; the asynchronous,
effectful parts (HTTP fetches, SiYuan API calls) are modelled by passing
an explicit environment record holding the responses the outside world
would give, and an explicit store state where the claims need one.
Timestamps are modelled as integers (milliseconds since the epoch); the
JavaScript `Date` parser is an abstract parameter `parseTime` where a
definition needs it.
-/

namespace KarakeepSync

/-! ## Generic string helpers (JS regex semantics on `List Char`) -/

/-- Characters treated as whitespace by the JS `\s` class (ASCII part;
the Unicode-only space characters are irrelevant to the properties
verified here). -/
def isJsSpace (c : Char) : Bool :=
  c = ' ' || c = '\t' || c = '\n' || c = '\r' ||
  c = Char.ofNat 11 || c = Char.ofNat 12 || c = Char.ofNat 160

/-- Worker for `collapseRuns`: `inRun` records whether the previous
character satisfied `p` (so the current run has already emitted `r`). -/
def collapseRunsAux (p : Char → Bool) (r : Char) : Bool → List Char → List Char
  | _, [] => []
  | inRun, c :: cs =>
    if p c then
      if inRun then collapseRunsAux p r true cs
      else r :: collapseRunsAux p r true cs
    else c :: collapseRunsAux p r false cs

/-- Replace every maximal run of characters satisfying `p` by the single
character `r` (the JS `replace(/X+/g, "r")` pattern). -/
def collapseRuns (p : Char → Bool) (r : Char) (l : List Char) : List Char :=
  collapseRunsAux p r false l

/-- Drop the trailing run of characters satisfying `p`. -/
def dropTrailing (p : Char → Bool) (l : List Char) : List Char :=
  (l.reverse.dropWhile p).reverse

/-- Drop the leading and trailing runs of characters satisfying `p`
(the JS `replace(/^X+|X+$/g, "")` pattern). -/
def trimEnds (p : Char → Bool) (l : List Char) : List Char :=
  dropTrailing p (l.dropWhile p)

/-! ## src/utils.ts : sanitizeSiYuanPath -/

/-- The character class `[\\\/:\*\?"<>\|#%\^\&\{\}\[\]\n\r\t]` of
`sanitizeSiYuanPath` (braces written via their code points). -/
def isUnsafePathChar (c : Char) : Bool :=
  c = '\\' || c = '/' || c = ':' || c = '*' || c = '?' || c = '"' ||
  c = '<' || c = '>' || c = '|' || c = '#' || c = '%' || c = '^' ||
  c = '&' || c = Char.ofNat 123 || c = Char.ofNat 125 ||
  c = '[' || c = ']' || c = '\n' || c = '\r' || c = '\t'

/-- Model of `new Date(createdAt).toISOString().split("T")[0]` for
inputs that are already ISO-8601 UTC timestamps (the only timestamps the
Karakeep API produces): the date part before the `T` separator. -/
def isoDatePart (createdAt : String) : String :=
  String.mk (createdAt.data.takeWhile (fun c => c ≠ 'T'))

/-- Embedding of `sanitizeSiYuanPath` from src/utils.ts: replace unsafe
filesystem characters by `-`, collapse whitespace runs to `-`, collapse
`-` runs, trim leading/trailing `-` then `.`, cap at 60 characters with
trailing `-` trimmed after truncation, fall back to `bookmark-<date>`
when empty, and return `<date>-<sanitized>`. -/
def sanitizeSiYuanPath (title : String) (createdAt : String) : String :=
  let dateStr := isoDatePart createdAt
  let l1 := title.data.map (fun c => if isUnsafePathChar c then '-' else c)
  let l2 := collapseRuns isJsSpace '-' l1
  let l3 := collapseRuns (fun c => c = '-') '-' l2
  let l4 := trimEnds (fun c => c = '-') l3
  let l5 := trimEnds (fun c => c = '.') l4
  let l6 := if l5.length > 60 then dropTrailing (fun c => c = '-') (l5.take 60) else l5
  let sanitizedTitle := if l6.isEmpty then "bookmark-" ++ dateStr else String.mk l6
  dateStr ++ "-" ++ sanitizedTitle

/-! ## Data model (src/types.ts) -/

/-- The `type` discriminant of `KarakeepBookmarkContent`. -/
inductive ContentType where
  | link
  | text
  | asset
  | unknown
deriving DecidableEq

/-- Embedding of `KarakeepTag` (src/types.ts). -/
structure KarakeepTag where
  id : String := ""
  name : String
  attachedBy : String := "human"
deriving DecidableEq

/-- Embedding of `KarakeepBookmarkContent` (src/types.ts); optional
fields are `Option String`, `none` modelling an absent field. -/
structure KarakeepBookmarkContent where
  type : ContentType := .unknown
  url : Option String := none
  title : Option String := none
  description : Option String := none
  imageUrl : Option String := none
  imageAssetId : Option String := none
  screenshotAssetId : Option String := none
  htmlContent : Option String := none
  text : Option String := none
  sourceUrl : Option String := none
  assetType : Option String := none
  assetId : Option String := none
  fileName : Option String := none
deriving DecidableEq

/-- Embedding of `KarakeepBookmark` (src/types.ts). Timestamps stay in
their wire form (ISO strings); `title : Option String` models
`string | null`. -/
structure KarakeepBookmark where
  id : String
  createdAt : String
  modifiedAt : Option String := none
  title : Option String := none
  archived : Bool := false
  favourited : Bool := false
  note : Option String := none
  summary : Option String := none
  tags : List KarakeepTag := []
  content : KarakeepBookmarkContent := {}
deriving DecidableEq

/-- Embedding of `ProcessResult.status` (src/types.ts). -/
inductive ProcessStatus where
  | created
  | updated
  | skipped
  | skipped_filtered
  | error
deriving DecidableEq

/-- Embedding of `ProcessResult` (src/types.ts). -/
structure ProcessResult where
  status : ProcessStatus
  message : Option String := none
deriving DecidableEq

/-! ## More JS string primitives needed by src/formatting.ts -/

/-- JS `String.prototype.trim` (whitespace at both ends removed). -/
def jsTrim (s : String) : String :=
  String.mk (trimEnds isJsSpace s.data)

/-- Truthiness-plus-trim gadget for the frequent JS pattern
`x?.trim()` used as a condition: `some t` when the field is present and
trims to a non-empty string `t`. -/
def trimmedNonEmpty : Option String → Option String
  | some s => let t := jsTrim s; if t.data.isEmpty then none else some t
  | none => none

/-- JS `String.prototype.split` with a single-character separator. -/
def splitChar (sep : Char) : List Char → List (List Char)
  | [] => [[]]
  | c :: cs =>
    let r := splitChar sep cs
    if c = sep then [] :: r
    else
      match r with
      | [] => [[c]]
      | h :: t => (c :: h) :: t

/-- ASCII lower-casing (all characters relevant here are ASCII). -/
def asciiLower (c : Char) : Char :=
  if 'A' ≤ c && c ≤ 'Z' then Char.ofNat (c.toNat + 32) else c

/-- Value of an ASCII hex digit. -/
def hexDigitVal (c : Char) : Option Nat :=
  if '0' ≤ c && c ≤ '9' then some (c.toNat - 48)
  else if 'a' ≤ c && c ≤ 'f' then some (c.toNat - 87)
  else if 'A' ≤ c && c ≤ 'F' then some (c.toNat - 55)
  else none

/-- One token of a percent-encoded string: a literal character, or the
byte value of one `%XX` escape. -/
inductive UriToken where
  | raw (c : Char)
  | esc (b : Nat)
deriving DecidableEq

/-- First phase of `decodeURIComponent`: scan for `%XX` escapes; `none`
models the URIError thrown on a `%` not followed by two hex digits. -/
def tokenizePercent : List Char → Option (List UriToken)
  | [] => some []
  | '%' :: a :: b :: rest =>
    (match hexDigitVal a, hexDigitVal b with
     | some x, some y => (tokenizePercent rest).map (UriToken.esc (16 * x + y) :: ·)
     | _, _ => none)
  | '%' :: _ => none
  | c :: rest => (tokenizePercent rest).map (UriToken.raw c :: ·)

/-- Is `b` a UTF-8 continuation byte (`0x80`–`0xBF`)? -/
def isUtf8Cont (b : Nat) : Bool := 128 ≤ b && b ≤ 191

/-- Second phase of `decodeURIComponent`: escape bytes must form valid
(shortest-form, non-surrogate, in-range) UTF-8 sequences whose
continuation bytes are themselves escapes; `none` models the URIError
thrown otherwise. Lead-byte ranges: `0xC2`–`0xDF` (two bytes, excluding
the overlong leads `0xC0`/`0xC1`), `0xE0`–`0xEF` (three bytes, with
`0xE0` requiring `0xA0`+ and `0xED` capping at `0x9F` to exclude
overlongs and surrogates), `0xF0`–`0xF4` (four bytes, with `0xF0`
requiring `0x90`+ and `0xF4` capping at `0x8F` to stay below
`0x110000`). -/
def decodeTokens : List UriToken → Option (List Char)
  | [] => some []
  | .raw c :: rest => (decodeTokens rest).map (c :: ·)
  | .esc b0 :: rest =>
    if b0 < 128 then (decodeTokens rest).map (Char.ofNat b0 :: ·)
    else if 194 ≤ b0 && b0 ≤ 223 then
      match rest with
      | .esc b1 :: rest1 =>
        if isUtf8Cont b1 then
          (decodeTokens rest1).map (Char.ofNat ((b0 - 192) * 64 + (b1 - 128)) :: ·)
        else none
      | _ => none
    else if 224 ≤ b0 && b0 ≤ 239 then
      match rest with
      | .esc b1 :: .esc b2 :: rest2 =>
        let lo := if b0 = 224 then 160 else 128
        let hi := if b0 = 237 then 159 else 191
        if lo ≤ b1 && b1 ≤ hi && isUtf8Cont b2 then
          (decodeTokens rest2).map
            (Char.ofNat ((b0 - 224) * 4096 + (b1 - 128) * 64 + (b2 - 128)) :: ·)
        else none
      | _ => none
    else if 240 ≤ b0 && b0 ≤ 244 then
      match rest with
      | .esc b1 :: .esc b2 :: .esc b3 :: rest3 =>
        let lo := if b0 = 240 then 144 else 128
        let hi := if b0 = 244 then 143 else 191
        if lo ≤ b1 && b1 ≤ hi && isUtf8Cont b2 && isUtf8Cont b3 then
          (decodeTokens rest3).map
            (Char.ofNat ((b0 - 240) * 262144 + (b1 - 128) * 4096 +
              (b2 - 128) * 64 + (b3 - 128)) :: ·)
        else none
      | _ => none
    else none

/-- Model of JS `decodeURIComponent`: percent escapes are decoded as
UTF-8 byte sequences; `none` models the thrown URIError (malformed
escape, or escape bytes not forming valid UTF-8). The decoded text is
modelled at the code-point level (an astral code point is one `Char`
here and a surrogate pair in a JS string; no verified property depends
on that difference). -/
def decodeURIComponent (l : List Char) : Option (List Char) :=
  (tokenizePercent l).bind decodeTokens

/-- The regex `replace(/\.[^/.]+$/, "")` of src/formatting.ts: strip a
trailing `.ext` where `ext` is a non-empty run without `/` or `.`. -/
def stripExtChars (l : List Char) : List Char :=
  let r := l.reverse
  let ext := r.takeWhile (fun c => c ≠ '.' && c ≠ '/')
  if ext.isEmpty then l
  else
    match r.drop ext.length with
    | '.' :: restR => restR.reverse
    | _ => l

/-- The regex `replace(/[-_]/g, " ")` of src/formatting.ts. -/
def sepToSpace (l : List Char) : List Char :=
  l.map (fun c => if c = '-' || c = '_' then ' ' else c)

/-- The regex `replace(/^www\./, "")` of src/formatting.ts. -/
def stripWww (l : List Char) : List Char :=
  if ['w', 'w', 'w', '.'].isPrefixOf l then l.drop 4 else l

/-! ## Model of the JS URL parser -/

/-- The two components of a parsed JS `URL` that the source reads. -/
structure JsURL where
  hostname : String
  pathname : String
deriving DecidableEq

/-- Split a list at the first occurrence of `pat`, returning the parts
before and after it. -/
def splitAtSub (pat : List Char) : List Char → Option (List Char × List Char)
  | [] => none
  | c :: cs =>
    if pat.isPrefixOf (c :: cs) then some ([], (c :: cs).drop pat.length)
    else
      match splitAtSub pat cs with
      | some (pre, post) => some (c :: pre, post)
      | none => none

/-- WHATWG URL input preparation: remove all ASCII tab/LF/CR and trim
leading/trailing C0-control-or-space characters. -/
def cleanUrlInput (l : List Char) : List Char :=
  trimEnds (fun c => c ≤ ' ') (l.filter (fun c => c ≠ '\t' && c ≠ '\n' && c ≠ '\r'))

/-- Host characters the model refuses: the WHATWG forbidden host code
points (control/space, `#%/:<>?@[\]^|`) plus every non-ASCII character
— a non-ASCII (IDN) hostname is punycoded by the real constructor,
which this model does not reproduce, so such hosts are rejected
(`parseURL` answers `none`) rather than mis-reported. -/
def isForbiddenHostChar (c : Char) : Bool :=
  c ≤ ' ' || c = '#' || c = '%' || c = '/' || c = ':' || c = '<' || c = '>' ||
  c = '?' || c = '@' || c = '[' || c = '\\' || c = ']' || c = '^' || c = '|' ||
  128 ≤ c.toNat

/-- The last host label (ignoring one trailing dot), for the WHATWG
"ends in a number" check. -/
def lastHostLabel (host : List Char) : List Char :=
  match (splitChar '.' host).reverse with
  | [] => []
  | l :: rest =>
    if l.isEmpty then
      (match rest with
       | [] => []
       | l2 :: _ => l2)
    else l

/-- WHATWG "ends in a number": the last label is all digits, or `0x` /
`0X` followed by hex digits. Such hosts are parsed as IPv4 addresses
(and normalized) by the real constructor; the model rejects them. -/
def hostEndsInNumber (host : List Char) : Bool :=
  let l := lastHostLabel host
  !l.isEmpty &&
    (l.all (fun c => c.isDigit) ||
     (match l with
      | '0' :: x :: rest => (x = 'x' || x = 'X') && rest.all (fun c => (hexDigitVal c).isSome)
      | _ => false))

/-- A single-dot path segment per WHATWG: `.` or `%2e`
(case-insensitive). -/
def isSingleDotSeg (s : List Char) : Bool :=
  s.map asciiLower = ['.'] || s.map asciiLower = ['%', '2', 'e']

/-- A double-dot path segment per WHATWG: `..`, `.%2e`, `%2e.` or
`%2e%2e` (case-insensitive). -/
def isDoubleDotSeg (s : List Char) : Bool :=
  let l := s.map asciiLower
  l = ['.', '.'] || l = ['.', '%', '2', 'e'] || l = ['%', '2', 'e', '.'] ||
    l = ['%', '2', 'e', '%', '2', 'e']

/-- WHATWG path-state processing of the segments after the leading
slash, with the accumulated output segments in reverse: `..` pops the
last output segment (appending an empty segment when it is the final
input segment), `.` is dropped (likewise appending an empty final
segment), anything else is kept. -/
def normalizeSegsAux (acc : List (List Char)) : List (List Char) → List (List Char)
  | [] => acc.reverse
  | [s] =>
    if isDoubleDotSeg s then (acc.drop 1).reverse ++ [[]]
    else if isSingleDotSeg s then acc.reverse ++ [[]]
    else acc.reverse ++ [s]
  | s :: rest =>
    if isDoubleDotSeg s then normalizeSegsAux (acc.drop 1) rest
    else if isSingleDotSeg s then normalizeSegsAux acc rest
    else normalizeSegsAux (s :: acc) rest

/-- WHATWG dot-segment normalization of a path that starts with `/`:
`/a/..` becomes `/`, `/a/./b` becomes `/a/b`, `/a/b/..` becomes
`/a/`. -/
def normalizePath (l : List Char) : List Char :=
  match splitChar '/' l with
  | [] => l
  | [_] => l
  | _ :: segs => '/' :: List.intercalate ['/'] (normalizeSegsAux [] segs)

/-- Model of the JS `new URL(...)` constructor on the fragment this
program exercises: absolute special-scheme URLs
`scheme://[userinfo@]host[:port][/path][?query][#fragment]` with an
ASCII non-IPv4-shaped hostname. The input is tab/newline-stripped and
end-trimmed, the hostname is lower-cased and validated, the path is
dot-segment normalized, and `none` models the constructor throwing.
Outside the modelled fragment the model answers `none` rather than
guessing: non-special schemes, IDN hostnames (punycoded by the real
constructor), IPv4/IPv6 host normalization, and backslash-as-slash
treatment are not reproduced, and no theorem below quantifies over
such inputs. The serializer's percent-encoding of the path is also not
reproduced; for the title derivation it cancels against
`decodeURIComponent`, and the theorems below are stated on the raw
path. -/
def parseURL (s : String) : Option JsURL :=
  match splitAtSub ['/', '/'] (cleanUrlInput s.data) with
  | none => none
  | some (schemeColon, rest) =>
    match schemeColon.reverse with
    | ':' :: schemeRev =>
      let scheme := schemeRev.reverse.map asciiLower
      if !(["http".data, "https".data, "ws".data, "wss".data, "ftp".data].contains scheme) then
        none
      else
        let authority := rest.takeWhile (fun c => c ≠ '/' && c ≠ '?' && c ≠ '#')
        let afterAuth := rest.drop authority.length
        let hostPort := (authority.reverse.takeWhile (fun c => c ≠ '@')).reverse
        let hostRaw := hostPort.takeWhile (fun c => c ≠ ':')
        let portPart := hostPort.drop hostRaw.length
        let portOk :=
          match portPart with
          | [] => true
          | _ :: ds =>
            ds.all (fun c => c.isDigit) &&
              ds.foldl (fun n c => n * 10 + (c.toNat - 48)) 0 ≤ 65535
        let hostname := hostRaw.map asciiLower
        if hostname.isEmpty || hostname.any isForbiddenHostChar ||
            hostEndsInNumber hostname || !portOk then none
        else
          let pathRaw := afterAuth.takeWhile (fun c => c ≠ '?' && c ≠ '#')
          some { hostname := String.mk hostname
                 pathname := if pathRaw.isEmpty then "/" else String.mk (normalizePath pathRaw) }
    | _ => none

/-! ## src/formatting.ts : getBookmarkTitle -/

/-- The `pathSegments.pop() || pathSegments.pop()` idiom of
`getBookmarkTitle`: the last element if non-empty, otherwise the
element before it (only the final two elements are ever examined); the
JS `undefined` result of popping an exhausted array is modelled by the
equally-falsy empty list. -/
def lastTwoPop (segs : List (List Char)) : List Char :=
  match segs.reverse with
  | [] => []
  | a :: rest =>
    if !a.isEmpty then a
    else
      match rest with
      | [] => []
      | b :: _ => b

/-- The `try { new URL(content.url) ... }` block of `getBookmarkTitle`
for link-type content: path-segment title (via `decodeURIComponent`,
whose URIError — like a constructor throw — lands in the surrounding
catch and yields the first 100 characters of the raw URL), else
hostname with a leading `www.` stripped. -/
def linkTitleFromUrl (u : String) : String :=
  match parseURL u with
  | none => String.mk (u.data.take 100)
  | some url =>
    let lastSeg := lastTwoPop (splitChar '/' url.pathname.data)
    if lastSeg.isEmpty then String.mk (stripWww url.hostname.data)
    else
      match decodeURIComponent lastSeg with
      | none => String.mk (u.data.take 100)
      | some dec =>
        let pathTitle := trimEnds isJsSpace (sepToSpace (stripExtChars dec))
        if pathTitle.isEmpty then String.mk (stripWww url.hostname.data)
        else String.mk pathTitle

/-- The `content.sourceUrl` branch of `getBookmarkTitle` for asset-type
content (note: unlike the link branch, no extension stripping and no
`www.` stripping; a URIError from `decodeURIComponent` again lands in
the catch). -/
def assetTitleFromSourceUrl (su : String) : String :=
  match parseURL su with
  | none => String.mk (su.data.take 100)
  | some url =>
    let lastSeg := lastTwoPop (splitChar '/' url.pathname.data)
    if lastSeg.isEmpty then url.hostname
    else
      match decodeURIComponent lastSeg with
      | none => String.mk (su.data.take 100)
      | some dec => String.mk dec

/-- Embedding of `getBookmarkTitle` from src/formatting.ts. -/
def getBookmarkTitle (bm : KarakeepBookmark) : String :=
  match trimmedNonEmpty bm.title with
  | some t => t
  | none =>
    let content := bm.content
    let fallback :=
      "Bookmark-" ++ String.mk (bm.id.data.take 8) ++ "-" ++ isoDatePart bm.createdAt
    match content.type with
    | .link =>
      (match trimmedNonEmpty content.title with
       | some t => t
       | none =>
         match content.url with
         | some u => if u.data.isEmpty then fallback else linkTitleFromUrl u
         | none => fallback)
    | .text =>
      (match content.text with
       | some tx =>
         if tx.data.isEmpty then fallback
         else
           let firstLine := trimEnds isJsSpace (tx.data.takeWhile (fun c => c ≠ '\n'))
           if firstLine.length ≤ 100 then String.mk firstLine
           else String.mk (firstLine.take 97) ++ "..."
       | none => fallback)
    | .asset =>
      (match content.fileName with
       | some fn =>
         if fn.data.isEmpty then
           (match content.sourceUrl with
            | some su => if su.data.isEmpty then fallback else assetTitleFromSourceUrl su
            | none => fallback)
         else String.mk (trimEnds isJsSpace (stripExtChars fn.data))
       | none =>
         match content.sourceUrl with
         | some su => if su.data.isEmpty then fallback else assetTitleFromSourceUrl su
         | none => fallback)
    | .unknown => fallback

/-! ## Settings (src/settings.ts DEFAULT_SETTINGS shape) -/

/-- Embedding of `KarakeepSyncSettings` (src/types.ts), with the
defaults of `DEFAULT_SETTINGS` (src/settings.ts). -/
structure KarakeepSyncSettings where
  apiKey : String := ""
  apiEndpoint : String := "https://api.Karakeep.app/api/v1"
  syncNotebookId : Option String := none
  syncIntervalMinutes : Nat := 60
  lastSyncTimestamp : Int := 0
  updateExistingFiles : Bool := false
  excludeArchived : Bool := true
  onlyFavorites : Bool := false
  excludedTags : List String := []
  downloadAssets : Bool := true
deriving DecidableEq

/-! ## src/sync_logic.ts : shouldUpdateDocument -/

/-- The slice of a SiYuan block-attribute map read by
`shouldUpdateDocument`: the value of the `custom-Karakeep-modified`
attribute when that key is present. -/
structure SiyuanAttrs where
  modified : Option String := none
deriving DecidableEq

/-- The `storedModifiedTime` local of `shouldUpdateDocument`:
`attrs[ATTR_MODIFIED] ? new Date(attrs[ATTR_MODIFIED]).getTime() : 0`.
`parseTime` abstracts the JS `Date` parser (milliseconds since epoch);
an absent or empty attribute value is falsy and yields 0. -/
def storedModifiedTime (parseTime : String → Int) (a : SiyuanAttrs) : Int :=
  match a.modified with
  | some s => if s.data.isEmpty then 0 else parseTime s
  | none => 0

/-- The `bookmarkModifiedTime` local of `shouldUpdateDocument`:
`bookmark.modifiedAt ? ... : new Date(bookmark.createdAt).getTime()`. -/
def bookmarkModifiedTime (parseTime : String → Int) (bm : KarakeepBookmark) : Int :=
  match bm.modifiedAt with
  | some s => if s.data.isEmpty then parseTime bm.createdAt else parseTime s
  | none => parseTime bm.createdAt

/-- Embedding of `shouldUpdateDocument` (src/sync_logic.ts).
`attrs = none` models `getSiYuanBlockAttrs` returning null (retrieval
failed: API error or network error, both mapped to null there). -/
def shouldUpdateDocument (parseTime : String → Int) (settings : KarakeepSyncSettings)
    (attrs : Option SiyuanAttrs) (bm : KarakeepBookmark) : Bool :=
  if !settings.updateExistingFiles then false
  else
    match attrs with
    | some a =>
      let stored := storedModifiedTime parseTime a
      let bmTime := bookmarkModifiedTime parseTime bm
      if stored = 0 || bmTime > stored then true else false
    | none => true

/-! ## SiYuan store model (src/siyuan_api.ts) -/

/-- Observable SiYuan store state for the update claims: which document
ids currently exist, and the list of paths passed to the
create-document API in order (the create-call trace). -/
structure SiYuanState where
  docPresent : String → Bool
  createdPaths : List String := []

/-- Per-record environment: the responses the SiYuan/Karakeep side
would give to each API call made while processing one bookmark, plus
the abstract JS date parser. -/
structure DocApiEnv where
  parseTime : String → Int := fun _ => 0
  findResult : Except String (Option String) := .ok none
  attrsResult : Option SiyuanAttrs := none
  deleteOk : Bool := true
  formatThrows : Bool := false
  createResult : Option String := none

/-- Model of `removeSiYuanDocById` (src/siyuan_api.ts): true and the
document removed on success, false and the state unchanged on failure
(API error and network error both return false there). -/
def removeSiYuanDocById (ok : Bool) (st : SiYuanState) (docId : String) :
    Bool × SiYuanState :=
  if ok then
    (true, { st with docPresent := fun d => if d = docId then false else st.docPresent d })
  else (false, st)

/-- Model of `createSiYuanDocWithMd` (src/siyuan_api.ts): the new doc
id on success (document added), null on failure; either way the call is
recorded in the create trace with its path argument. -/
def createSiYuanDocWithMd (res : Option String) (path : String) (st : SiYuanState) :
    Option String × SiYuanState :=
  let st1 := { st with createdPaths := st.createdPaths ++ [path] }
  match res with
  | some nid => (some nid, { st1 with docPresent := fun d => if d = nid then true else st1.docPresent d })
  | none => (none, st1)

/-- Embedding of `createNewSiYuanDocument` (src/sync_logic.ts).
`env.formatThrows` models `formatBookmarkAsMarkdown` throwing (caught
there, before any create call); `setSiYuanDocAttributes` is best-effort
and has no observable effect in this state model. -/
def createNewSiYuanDocument (env : DocApiEnv) (st : SiYuanState) (path : String) :
    ProcessResult × SiYuanState :=
  if env.formatThrows then
    ({ status := .error, message := some "Document creation failed" }, st)
  else
    let (newDocId, st1) := createSiYuanDocWithMd env.createResult path st
    match newDocId with
    | some _ => ({ status := .created }, st1)
    | none => ({ status := .error, message := some "Failed to create document via API." }, st1)

/-- Embedding of `updateSiYuanDocument` (src/sync_logic.ts): delete the
existing document, then recreate via `createNewSiYuanDocument` at the
given path; `created` is relabelled `updated`, every other outcome is
propagated. -/
def updateSiYuanDocument (env : DocApiEnv) (st : SiYuanState)
    (existingDocId : String) (path : String) : ProcessResult × SiYuanState :=
  let (deleted, st1) := removeSiYuanDocById env.deleteOk st existingDocId
  if !deleted then
    ({ status := .error, message := some ("Failed to delete old doc " ++ existingDocId) }, st1)
  else
    let (createResult, st2) := createNewSiYuanDocument env st1 path
    if createResult.status = .created then ({ status := .updated }, st2)
    else (createResult, st2)

/-! ## src/sync_logic.ts : processBookmark -/

/-- The `replace(/^\/+/, "/")` of `processBookmark`: collapse a leading
run of slashes to a single slash. -/
def singleLeadingSlash (l : List Char) : List Char :=
  match l with
  | '/' :: _ => '/' :: l.dropWhile (fun c => c = '/')
  | _ => l

/-- The `safeDocPath` local of `processBookmark`. -/
def safeDocPath (bm : KarakeepBookmark) : String :=
  String.mk (singleLeadingSlash
    ("/" ++ sanitizeSiYuanPath (getBookmarkTitle bm) bm.createdAt).data)

/-- The excluded-tags test of `processBookmark`: some configured
excluded tag (lower-cased, trimmed, empties dropped) occurs among the
bookmark's lower-cased tag names. -/
def hasExcludedTag (settings : KarakeepSyncSettings) (bm : KarakeepBookmark) : Bool :=
  let bookmarkTagsLower := bm.tags.map (fun t => String.mk (t.name.data.map asciiLower))
  let excludedTagsLower :=
    (settings.excludedTags.map (fun t => jsTrim (String.mk (t.data.map asciiLower)))).filter
      (fun t => !t.data.isEmpty)
  excludedTagsLower.any (fun et => bookmarkTagsLower.contains et)

/-- Embedding of `processBookmark` (src/sync_logic.ts): the three
short-circuit filters in source order, then the existence check (whose
network errors are the only exceptions reaching the surrounding
try/catch) and the create-or-update decision. -/
def processBookmark (settings : KarakeepSyncSettings) (env : DocApiEnv)
    (bm : KarakeepBookmark) (st : SiYuanState) : ProcessResult × SiYuanState :=
  if settings.excludeArchived && bm.archived then
    ({ status := .skipped_filtered, message := some "Archived" }, st)
  else if settings.onlyFavorites && !bm.favourited then
    ({ status := .skipped_filtered, message := some "Not favorite" }, st)
  else if !bm.favourited && !settings.excludedTags.isEmpty && hasExcludedTag settings bm then
    ({ status := .skipped_filtered, message := some "Excluded tag" }, st)
  else
    match env.findResult with
    | .error e =>
      ({ status := .error,
         message := some (if e.data.isEmpty then "Unknown processing error" else e) }, st)
    | .ok (some existingDocId) =>
      if shouldUpdateDocument env.parseTime settings env.attrsResult bm then
        updateSiYuanDocument env st existingDocId (safeDocPath bm)
      else ({ status := .skipped, message := some "Exists, no update needed" }, st)
    | .ok none => createNewSiYuanDocument env st (safeDocPath bm)

/-! ## src/siyuan_api.ts : findExistingDocIdByKarakeepId -/

/-- Response of the `/api/query/sql` call: result code and the returned
block ids (`result.data`, projected to the selected `id` column). -/
structure SqlQueryResult where
  code : Int
  rows : List String
deriving DecidableEq

/-- Embedding of `findExistingDocIdByKarakeepId` (src/siyuan_api.ts)
as a function of the query response. `.error e` on the input models the
HTTP call throwing (network error); the function logs and re-throws it,
modelled by returning `.error e`. A non-zero result code is logged and
mapped to `.ok none`. -/
def findExistingDocIdByKarakeepId (response : Except String SqlQueryResult) :
    Except String (Option String) :=
  match response with
  | .error e => .error e
  | .ok r =>
    if r.code = 0 then
      match r.rows with
      | x :: _ => .ok (some x)
      | [] => .ok none
    else .ok none

/-! ## src/utils.ts : getExtensionFromContentType -/

/-- Embedding of `getExtensionFromContentType` (src/utils.ts). -/
def getExtensionFromContentType (contentType : String) (fallbackFileName : String) : String :=
  let mainType :=
    String.mk ((trimEnds isJsSpace (contentType.data.takeWhile (fun c => c ≠ ';'))).map asciiLower)
  if mainType = "image/jpeg" then "jpg"
  else if mainType = "image/png" then "png"
  else if mainType = "image/gif" then "gif"
  else if mainType = "image/webp" then "webp"
  else if mainType = "image/svg+xml" then "svg"
  else if mainType = "application/pdf" then "pdf"
  else if !fallbackFileName.data.isEmpty && fallbackFileName.data.contains '.' then
    let ext := ((splitChar '.' fallbackFileName.data).getLastD [])
    if !ext.isEmpty && ext.length < 5 then String.mk (ext.map asciiLower) else "asset"
  else "asset"

/-! ## src/siyuan_api.ts : downloadAndUploadAsset -/

/-- The character class `[\\\/:\*\?"<>\|]` used to sanitize upload
filenames. -/
def isUploadUnsafeChar (c : Char) : Bool :=
  c = '\\' || c = '/' || c = ':' || c = '*' || c = '?' || c = '"' ||
  c = '<' || c = '>' || c = '|'

/-- The regex class `[^a-zA-Z0-9_-]` (complement) used on the title
hint. -/
def isAssetSafeChar (c : Char) : Bool :=
  c.isAlpha || c.isDigit || c = '_' || c = '-'

/-- Step 2a of `downloadAndUploadAsset`: the URL-path basename of the
asset URL cut at `?`/`#`, or empty when URL parsing fails. -/
def rawAssetFileName (assetUrl : String) : List Char :=
  match parseURL assetUrl with
  | some u =>
    let base := (u.pathname.data.reverse.takeWhile (fun c => c ≠ '/')).reverse
    base.takeWhile (fun c => c ≠ '?' && c ≠ '#')
  | none => []

/-- Step 2b of `downloadAndUploadAsset`: the synthesized
`<idPart>-<safeTitlePart|asset>.<ext>` filename. -/
def synthesizedAssetFileName (contentType assetIdHint titleHint : String)
    (raw : List Char) : List Char :=
  let extension := getExtensionFromContentType contentType (String.mk raw)
  let safeTitlePart := (titleHint.data.map (fun c => if isAssetSafeChar c then c else '-')).take 20
  let idPart := if assetIdHint.data.length > 8 then assetIdHint.data.take 8 else assetIdHint.data
  idPart ++ ['-'] ++ (if safeTitlePart.isEmpty then "asset".data else safeTitlePart) ++
    ['.'] ++ extension.data

/-- The complete filename preparation of `downloadAndUploadAsset`:
basename when usable (non-empty, ≤ 50 chars, has a dot), else the
synthesized name; finally path-unsafe characters become `-` and
whitespace becomes `_`. -/
def assetFileName (assetUrl assetIdHint titleHint contentType : String) : String :=
  let raw := rawAssetFileName assetUrl
  let f1 :=
    if raw.isEmpty || raw.length > 50 || !raw.contains '.' then
      synthesizedAssetFileName contentType assetIdHint titleHint raw
    else raw
  String.mk ((f1.map (fun c => if isUploadUnsafeChar c then '-' else c)).map
    (fun c => if isJsSpace c then '_' else c))

/-- HTTP response slice read by `downloadAndUploadAsset` when fetching
the asset binary. -/
structure FetchResponse where
  ok : Bool
  status : Nat
  contentType : Option String := none
deriving DecidableEq

/-- Response slice of the SiYuan `/api/asset/upload` call:
`data.succMap` is the filename-indexed map of stored asset paths. -/
structure UploadResponse where
  code : Int
  succMap : String → Option String

/-- Environment for one `downloadAndUploadAsset` call: the download
result (`.error` = the fetch threw) and the upload result (`.error` =
the upload call threw). -/
structure AssetEnv where
  fetchResult : Except String FetchResponse := .error "network"
  uploadResult : Except String UploadResponse := .error "network"

/-- The `response.headers.get("content-type") || "application/octet-stream"`
defaulting of `downloadAndUploadAsset`. -/
def assetContentType (resp : FetchResponse) : String :=
  match resp.contentType with
  | some ct => if ct.data.isEmpty then "application/octet-stream" else ct
  | none => "application/octet-stream"

/-- Embedding of `downloadAndUploadAsset` (src/siyuan_api.ts): every
exception is caught by the function's outer try/catch and becomes null;
every failure path (non-OK response of any status, upload error, upload
result without a truthy `succMap` entry) is null; success returns the
SiYuan asset path. The `settings` parameter only selects the
authorization header in the source, which does not affect the returned
value (the response itself is part of `env`). -/
def downloadAndUploadAsset (env : AssetEnv) (_settings : KarakeepSyncSettings)
    (assetUrl assetIdHint titleHint : String) : Option String :=
  match env.fetchResult with
  | .error _ => none
  | .ok resp =>
    if !resp.ok then none
    else
      let fileName := assetFileName assetUrl assetIdHint titleHint (assetContentType resp)
      match env.uploadResult with
      | .error _ => none
      | .ok ur =>
        if ur.code = 0 then
          match ur.succMap fileName with
          | some p => if p.data.isEmpty then none else some p
          | none => none
        else none

/-! ## src/sync_logic.ts : runSyncCycle -/

/-- The five per-run tallies of `runSyncCycle`. -/
structure SyncCounts where
  created : Nat := 0
  updated : Nat := 0
  skipped : Nat := 0
  skippedFiltered : Nat := 0
  errors : Nat := 0
deriving DecidableEq

/-- Loop state of `runSyncCycle`: tallies, the seen-id de-dup set, and
the list of bookmarks actually handed to `processBookmark` (in order) -
the store-call trace of the run. -/
structure SyncState where
  counts : SyncCounts := {}
  seen : List String := []
  processed : List KarakeepBookmark := []
deriving DecidableEq

/-- The per-status tally increment of the `switch` in `runSyncCycle`. -/
def bumpCounts (c : SyncCounts) : ProcessStatus → SyncCounts
  | .created => { c with created := c.created + 1 }
  | .updated => { c with updated := c.updated + 1 }
  | .skipped => { c with skipped := c.skipped + 1 }
  | .skipped_filtered => { c with skippedFiltered := c.skippedFiltered + 1 }
  | .error => { c with errors := c.errors + 1 }

/-- One iteration of the inner `for` loop of `runSyncCycle`: a bookmark
whose id is already in the seen set is skipped outright (state
unchanged, no processing call); otherwise its id is recorded, the
record is processed (`proc` abstracts `processBookmark` for the run)
and the matching tally is incremented. -/
def stepBookmark (proc : KarakeepBookmark → ProcessResult) (st : SyncState)
    (bm : KarakeepBookmark) : SyncState :=
  if st.seen.contains bm.id then st
  else
    { counts := bumpCounts st.counts (proc bm).status
      seen := st.seen ++ [bm.id]
      processed := st.processed ++ [bm] }

/-- The `do … while (cursor)` pagination loop of `runSyncCycle` over
the successive fetch responses (`.error` = `fetchKarakeepBookmarks`
threw, aborting the loop; the returned flag is the resulting
critical-error state). -/
def runPages (proc : KarakeepBookmark → ProcessResult) :
    List (Except String (List KarakeepBookmark)) → SyncState → SyncState × Bool
  | [], st => (st, false)
  | .error _ :: _, st => (st, true)
  | .ok bms :: rest, st => runPages proc rest (bms.foldl (stepBookmark proc) st)

/-- Environment of one `runSyncCycle` invocation: the configuration
fields the cycle checks, the successive page-fetch results, and the
per-bookmark processing outcome. -/
structure RunEnv where
  apiKey : String := "key"
  syncNotebookId : Option String := some "nb"
  pages : List (Except String (List KarakeepBookmark)) := []
  proc : KarakeepBookmark → ProcessResult := fun _ => { status := .created }

/-- Observable outcome of `runSyncCycle`: the returned `success` flag,
the tallies, the critical-error flag, whether
`settings.lastSyncTimestamp` was refreshed, and the processing trace. -/
structure RunOutcome where
  success : Bool
  counts : SyncCounts
  criticalErrorOccurred : Bool
  timestampUpdated : Bool
  processed : List KarakeepBookmark

/-- Embedding of `runSyncCycle` (src/sync_logic.ts): config checks
throw (critical) on a missing/empty api key or notebook id; the
pagination loop runs to the last page unless a fetch throws; a critical
error adds one to the error tally and skips the timestamp refresh;
`success` is the absence of both critical and per-record errors. -/
def runSyncCycle (env : RunEnv) : RunOutcome :=
  if env.apiKey.data.isEmpty then
    { success := false, counts := { errors := 1 }, criticalErrorOccurred := true,
      timestampUpdated := false, processed := [] }
  else if (match env.syncNotebookId with
           | some nb => nb.data.isEmpty
           | none => true) then
    { success := false, counts := { errors := 1 }, criticalErrorOccurred := true,
      timestampUpdated := false, processed := [] }
  else
    let (st, crit) := runPages env.proc env.pages {}
    let counts := if crit then { st.counts with errors := st.counts.errors + 1 } else st.counts
    { success := !crit && counts.errors == 0
      counts := counts
      criticalErrorOccurred := crit
      timestampUpdated := !crit
      processed := st.processed }

/-! ## Concrete inputs used by the claim theorems -/

/-- A SiYuan store state with no documents and an empty create trace. -/
def emptyStore : SiYuanState := { docPresent := fun _ => false }

/-- A favourited bookmark carrying a tag that matches the excluded tag
used in the C2 witness. -/
def favTaggedBookmark : KarakeepBookmark :=
  { id := "b-fav", createdAt := "2024-01-01T00:00:00Z", favourited := true,
    tags := [{ name := "News" }] }

/-- An archived and favourited bookmark (C3 witness: the archived
filter fires even for favourites). -/
def archivedFavBookmark : KarakeepBookmark :=
  { id := "b-arch", createdAt := "2024-01-01T00:00:00Z", archived := true,
    favourited := true }

/-! ## Claim-side readings and concrete fixtures -/

/-- The stored modified time as the C1 claim reads it: present exactly
when the modified attribute is present (with a non-empty value), and
then its parsed value. This is the claim-side reading, to be compared
with the code's `storedModifiedTime`, which collapses an absent
attribute and a parsed value of 0 into the same number. -/
def claimStoredTime (parseTime : String → Int) (a : SiyuanAttrs) : Option Int :=
  match a.modified with
  | some s => if s.data.isEmpty then none else some (parseTime s)
  | none => none

/-- The C1 claim's decision rule, stated as written: update iff
updating is enabled and (attribute retrieval failed, or T is absent, or
T' > T). -/
def claimUpdateDecision (parseTime : String → Int) (settings : KarakeepSyncSettings)
    (attrs : Option SiyuanAttrs) (bm : KarakeepBookmark) : Prop :=
  settings.updateExistingFiles = true ∧
    (match attrs with
     | none => True
     | some a =>
       match claimStoredTime parseTime a with
       | none => True
       | some t => bookmarkModifiedTime parseTime bm > t)

/-- The exact epoch instant in ISO form: the one timestamp string whose
parsed value, 0, is falsy in JS. -/
def epochIso : String := "1970-01-01T00:00:00.000Z"

/-- A date parser consistent with JS `Date.parse` on the single string
the counterexample uses (`Date.parse` maps the epoch instant to 0). -/
def epochParse : String → Int := fun s => if s = epochIso then 0 else 1

/-- C1 counterexample input: updating enabled, attribute retrieval
succeeded, stored modified attribute present and equal to the epoch
instant. -/
def c1CexSettings : KarakeepSyncSettings := { updateExistingFiles := true }

/-- C1 counterexample input: the stored attribute map, holding the
epoch instant. -/
def c1CexAttrs : SiyuanAttrs := { modified := some epochIso }

/-- C1 counterexample input: a bookmark whose effective modified time
is also the epoch (createdAt = epoch, no modifiedAt), so T' > T fails
while T is present. -/
def c1CexBookmark : KarakeepBookmark := { id := "b1", createdAt := epochIso }

/-- C9 witness fixture: an upload-response map holding one stored
asset path for the filename derived from the fixture URL. -/
def c9SuccMap : String → Option String :=
  fun f => if f = "image.png" then some "assets/Karakeep-sync/image.png" else none

/-- C6 fixtures: two bookmarks delivered on two pages sharing the same
id (differing in another field, as with an overlapping page boundary). -/
def c6FirstBookmark : KarakeepBookmark :=
  { id := "dup-id", createdAt := "2024-01-01T00:00:00Z", title := some "first copy" }

/-- C6 fixtures: the second-page occurrence of the same id. -/
def c6SecondBookmark : KarakeepBookmark :=
  { id := "dup-id", createdAt := "2024-01-01T00:00:00Z", title := some "second copy" }

/-- C10 fixtures: a record whose processing errors. -/
def c10ErrBookmark : KarakeepBookmark :=
  { id := "b-err", createdAt := "2024-01-01T00:00:00Z" }

/-- C10 fixtures: a record whose processing succeeds. -/
def c10OkBookmark : KarakeepBookmark :=
  { id := "b-ok", createdAt := "2024-01-02T00:00:00Z" }

/-- C10 fixtures: the per-record outcome function of the scenario run
(the first record errors, every other is created). -/
def c10Proc : KarakeepBookmark → ProcessResult :=
  fun bm =>
    if bm.id = "b-err" then { status := .error, message := some "boom" }
    else { status := .created }

/-- C10 fixtures: a configured run delivering both records on one
page. -/
def c10Env : RunEnv :=
  { apiKey := "k", syncNotebookId := some "nb",
    pages := [.ok [c10ErrBookmark, c10OkBookmark]], proc := c10Proc }

/-! ## Claim theorems -/

/-- C2: for every bookmark record with favourited = true, the
per-record filter never drops the record because of the excludedTags
configuration: the whole processing outcome (result and store state) is
the same as with an empty excluded-tag list, regardless of how many of
the record's tags match. -/
theorem C2_favourites_bypass_tag_exclusion (settings : KarakeepSyncSettings)
    (env : DocApiEnv) (bm : KarakeepBookmark) (st : SiYuanState) (ts : List String)
    (hfav : bm.favourited = true) :
    processBookmark { settings with excludedTags := ts } env bm st =
      processBookmark { settings with excludedTags := [] } env bm st := by
  simp [processBookmark, hfav, shouldUpdateDocument]

theorem C2_favourites_bypass_tag_exclusion_witness :
    processBookmark { ({} : KarakeepSyncSettings) with excludedTags := ["news"] } {}
        favTaggedBookmark emptyStore =
      processBookmark { ({} : KarakeepSyncSettings) with excludedTags := [] } {}
        favTaggedBookmark emptyStore :=
  C2_favourites_bypass_tag_exclusion {} {} favTaggedBookmark emptyStore ["news"] rfl

/-- C3: with excludeArchived = true, every archived record (favourited
or not) is short-circuited to skipped_filtered by the first filter and
never yields created or updated. -/
theorem C3_archived_always_filtered (settings : KarakeepSyncSettings)
    (env : DocApiEnv) (bm : KarakeepBookmark) (st : SiYuanState)
    (harch : bm.archived = true) (hex : settings.excludeArchived = true) :
    (processBookmark settings env bm st).fst =
      { status := .skipped_filtered, message := some "Archived" } ∧
    (processBookmark settings env bm st).fst.status ≠ .created ∧
    (processBookmark settings env bm st).fst.status ≠ .updated := by
  have h : processBookmark settings env bm st =
      ({ status := .skipped_filtered, message := some "Archived" }, st) := by
    simp [processBookmark, harch, hex]
  rw [h]
  exact ⟨rfl, by simp, by simp⟩

theorem C3_archived_always_filtered_witness :
    (processBookmark { ({} : KarakeepSyncSettings) with excludeArchived := true } {}
        archivedFavBookmark emptyStore).fst =
      { status := .skipped_filtered, message := some "Archived" } ∧
    (processBookmark { ({} : KarakeepSyncSettings) with excludeArchived := true } {}
        archivedFavBookmark emptyStore).fst.status ≠ .created ∧
    (processBookmark { ({} : KarakeepSyncSettings) with excludeArchived := true } {}
        archivedFavBookmark emptyStore).fst.status ≠ .updated :=
  C3_archived_always_filtered { excludeArchived := true } {} archivedFavBookmark emptyStore
    rfl rfl

/-- C4: path derivation is a pure deterministic function of
(title, createdAt) — equal inputs give equal paths — and on title
"Hello/World??" with createdAt "2024-03-01T00:00:00Z" it yields
"2024-03-01-Hello-World". -/
theorem C4_path_derivation_deterministic :
    (∀ t₁ t₂ c₁ c₂ : String, t₁ = t₂ → c₁ = c₂ →
        sanitizeSiYuanPath t₁ c₁ = sanitizeSiYuanPath t₂ c₂) ∧
    sanitizeSiYuanPath "Hello/World??" "2024-03-01T00:00:00Z" = "2024-03-01-Hello-World" := by
  constructor
  · intro t₁ t₂ c₁ c₂ h1 h2
    rw [h1, h2]
  · decide

theorem C4_path_derivation_deterministic_witness :
    sanitizeSiYuanPath "Hello/World??" "2024-03-01T00:00:00Z" =
      sanitizeSiYuanPath "Hello/World??" "2024-03-01T00:00:00Z" :=
  C4_path_derivation_deterministic.1 _ _ _ _ rfl rfl

/-! ## C1: the update decision -/

/-- C1 counterexample: with a stored modified time that is present but
equal to 0 (the epoch, a falsy JS number) and an effective record time
not greater than it, the code decides to update although the claim as
stated ("T is absent or T' > T") says it must not: the code cannot
distinguish a stored epoch timestamp from an absent one. -/
theorem C1_claim_counterexample :
    shouldUpdateDocument epochParse c1CexSettings (some c1CexAttrs) c1CexBookmark = true ∧
    ¬ claimUpdateDecision epochParse c1CexSettings (some c1CexAttrs) c1CexBookmark := by
  constructor
  · decide
  · intro h
    have h2 := h.2
    simp [claimUpdateDecision, claimStoredTime, c1CexAttrs, c1CexBookmark,
      bookmarkModifiedTime, epochParse, epochIso] at h2

/-- C1 (amended): the update decision returns true iff updating is
enabled and (attribute retrieval failed, or T is absent, or T equals 0
— the falsy epoch value the code cannot tell from an absent timestamp —
or T' > T), where T' is the record's effective modified time
(modifiedAt if present, else createdAt). -/
theorem C1_update_decision (parseTime : String → Int) (settings : KarakeepSyncSettings)
    (attrs : Option SiyuanAttrs) (bm : KarakeepBookmark) :
    shouldUpdateDocument parseTime settings attrs bm = true ↔
      (settings.updateExistingFiles = true ∧
        (attrs = none ∨
          ∃ a, attrs = some a ∧
            (claimStoredTime parseTime a = none ∨
             claimStoredTime parseTime a = some 0 ∨
             ∃ t, claimStoredTime parseTime a = some t ∧
               bookmarkModifiedTime parseTime bm > t))) := by
  cases hu : settings.updateExistingFiles with
  | false => simp [shouldUpdateDocument, hu]
  | true =>
    cases attrs with
    | none => simp [shouldUpdateDocument, hu]
    | some a =>
      cases hm : a.modified with
      | none =>
        simp [shouldUpdateDocument, hu, storedModifiedTime, claimStoredTime, hm]
      | some s =>
        by_cases hs : s.data.isEmpty
        · simp [shouldUpdateDocument, hu, storedModifiedTime, claimStoredTime, hm, hs]
          exact Or.inl (by simpa using hs)
        · by_cases hz : parseTime s = 0
          · simp [shouldUpdateDocument, hu, storedModifiedTime, claimStoredTime, hm, hs, hz]
            exact Or.inr (Or.inl (by simpa using hs))
          · by_cases hgt : bookmarkModifiedTime parseTime bm > parseTime s
            · simp [shouldUpdateDocument, hu, storedModifiedTime, claimStoredTime, hm, hs, hz, hgt]
              exact Or.inr ⟨parseTime s, ⟨by simpa using hs, rfl⟩, hgt⟩
            · simp [shouldUpdateDocument, hu, storedModifiedTime, claimStoredTime, hm, hs, hz, hgt]
              exact ⟨by simpa using hs, fun _ => le_of_not_lt hgt⟩

/-! ## C5: title derivation fallback -/

/-- C7: for every warranted update the document is deleted first and
only then recreated at the given derived path. If the delete and the
recreate both succeed the outcome is updated (and the create trace
shows one create at that path); if the delete succeeds but the recreate
fails (formatting threw or the create API failed) the outcome is error
and the original document no longer exists; if the delete itself fails
the outcome is error and the store state — in particular the create
trace — is untouched (no create attempted). -/
theorem C7_update_is_delete_then_recreate (env : DocApiEnv) (st : SiYuanState)
    (docId path : String) :
    (env.deleteOk = true → env.formatThrows = false → (∃ nid, env.createResult = some nid) →
        (updateSiYuanDocument env st docId path).fst = { status := .updated } ∧
        (updateSiYuanDocument env st docId path).snd.createdPaths =
          st.createdPaths ++ [path]) ∧
    (env.deleteOk = true → (env.formatThrows = true ∨ env.createResult = none) →
        (updateSiYuanDocument env st docId path).fst.status = .error ∧
        (updateSiYuanDocument env st docId path).snd.docPresent docId = false) ∧
    (env.deleteOk = false →
        (updateSiYuanDocument env st docId path).fst.status = .error ∧
        (updateSiYuanDocument env st docId path).snd = st) := by
  refine ⟨?_, ?_, ?_⟩
  · intro hdel hfmt ⟨nid, hcr⟩
    simp [updateSiYuanDocument, removeSiYuanDocById, createNewSiYuanDocument,
      createSiYuanDocWithMd, hdel, hfmt, hcr]
  · intro hdel hfail
    cases hfail with
    | inl hfmt =>
      simp [updateSiYuanDocument, removeSiYuanDocById, createNewSiYuanDocument,
        createSiYuanDocWithMd, hdel, hfmt]
    | inr hcr =>
      cases hfmt : env.formatThrows with
      | true =>
        simp [updateSiYuanDocument, removeSiYuanDocById, createNewSiYuanDocument,
          createSiYuanDocWithMd, hdel, hfmt]
      | false =>
        simp [updateSiYuanDocument, removeSiYuanDocById, createNewSiYuanDocument,
          createSiYuanDocWithMd, hdel, hfmt, hcr]
  · intro hdel
    simp [updateSiYuanDocument, removeSiYuanDocById, hdel]

theorem C7_update_is_delete_then_recreate_witness :
    ((updateSiYuanDocument { deleteOk := true, createResult := some "new1" }
        { docPresent := fun _ => true } "doc1" "/p").fst = { status := .updated } ∧
     (updateSiYuanDocument { deleteOk := true, createResult := some "new1" }
        { docPresent := fun _ => true } "doc1" "/p").snd.createdPaths = [] ++ ["/p"]) ∧
    ((updateSiYuanDocument { deleteOk := true, createResult := none }
        { docPresent := fun _ => true } "doc1" "/p").fst.status = .error ∧
     (updateSiYuanDocument { deleteOk := true, createResult := none }
        { docPresent := fun _ => true } "doc1" "/p").snd.docPresent "doc1" = false) ∧
    ((updateSiYuanDocument { deleteOk := false, createResult := some "new1" }
        { docPresent := fun _ => true } "doc1" "/p").fst.status = .error ∧
     (updateSiYuanDocument { deleteOk := false, createResult := some "new1" }
        { docPresent := fun _ => true } "doc1" "/p").snd =
       { docPresent := fun _ => true }) :=
  ⟨(C7_update_is_delete_then_recreate { deleteOk := true, createResult := some "new1" }
      { docPresent := fun _ => true } "doc1" "/p").1 rfl rfl ⟨"new1", rfl⟩,
   (C7_update_is_delete_then_recreate { deleteOk := true, createResult := none }
      { docPresent := fun _ => true } "doc1" "/p").2.1 rfl (Or.inr rfl),
   (C7_update_is_delete_then_recreate { deleteOk := false, createResult := some "new1" }
      { docPresent := fun _ => true } "doc1" "/p").2.2 rfl⟩

/-! ## C8: the existence lookup -/

/-- C8 counterexample: when the SQL query call itself throws (network
error), `findExistingDocIdByKarakeepId` does not return null — it
re-throws the error to the caller, contradicting "never propagated". -/
theorem C8_claim_counterexample :
    findExistingDocIdByKarakeepId (.error "network error") = .error "network error" ∧
    findExistingDocIdByKarakeepId (.error "network error") ≠ .ok none := by
  exact ⟨rfl, by simp [findExistingDocIdByKarakeepId]⟩

/-- C8 (amended): the lookup returns null both when no document carries
the external-id attribute (code 0, no rows) and when the query API
reports failure (non-zero code, logged, not propagated); a match
returns the first row's id; but a transport-level exception during the
query is logged and re-thrown to the caller. -/
theorem C8_find_by_external_id :
    (∀ r : SqlQueryResult, r.code = 0 → r.rows = [] →
        findExistingDocIdByKarakeepId (.ok r) = .ok none) ∧
    (∀ r : SqlQueryResult, r.code ≠ 0 →
        findExistingDocIdByKarakeepId (.ok r) = .ok none) ∧
    (∀ (r : SqlQueryResult) (x : String) (rest : List String), r.code = 0 →
        r.rows = x :: rest → findExistingDocIdByKarakeepId (.ok r) = .ok (some x)) ∧
    (∀ e : String, findExistingDocIdByKarakeepId (.error e) = .error e) := by
  refine ⟨?_, ?_, ?_, ?_⟩
  · intro r hc hr
    simp [findExistingDocIdByKarakeepId, hc, hr]
  · intro r hc
    simp [findExistingDocIdByKarakeepId, hc]
  · intro r x rest hc hr
    simp [findExistingDocIdByKarakeepId, hc, hr]
  · intro e
    rfl

theorem C8_find_by_external_id_witness :
    findExistingDocIdByKarakeepId (.ok { code := 0, rows := [] }) = .ok none ∧
    findExistingDocIdByKarakeepId (.ok { code := 1, rows := [] }) = .ok none ∧
    findExistingDocIdByKarakeepId (.ok { code := 0, rows := ["d1", "d2"] }) = .ok (some "d1") :=
  ⟨C8_find_by_external_id.1 { code := 0, rows := [] } rfl rfl,
   C8_find_by_external_id.2.1 { code := 1, rows := [] } (by decide),
   C8_find_by_external_id.2.2.1 { code := 0, rows := ["d1", "d2"] } "d1" ["d2"] rfl rfl⟩

/-! ## C9: the asset pipeline -/

/-- C9: `downloadAndUploadAsset` always returns a value (it is total by
construction — every exception of the source is caught at its
boundary): null when the fetch throws, null on every non-OK download
response whatever the status (404 and 401/403 included), null when the
upload throws, fails, or reports no truthy entry for the prepared
filename, and the store's relative reference string on success. -/
theorem C9_asset_pipeline_never_throws (env : AssetEnv) (settings : KarakeepSyncSettings)
    (assetUrl assetIdHint titleHint : String) :
    (downloadAndUploadAsset env settings assetUrl assetIdHint titleHint = none ∨
      ∃ p, downloadAndUploadAsset env settings assetUrl assetIdHint titleHint = some p) ∧
    (∀ e, env.fetchResult = .error e →
        downloadAndUploadAsset env settings assetUrl assetIdHint titleHint = none) ∧
    (∀ resp, env.fetchResult = .ok resp → resp.ok = false →
        downloadAndUploadAsset env settings assetUrl assetIdHint titleHint = none) ∧
    (∀ resp e, env.fetchResult = .ok resp → resp.ok = true → env.uploadResult = .error e →
        downloadAndUploadAsset env settings assetUrl assetIdHint titleHint = none) ∧
    (∀ resp ur, env.fetchResult = .ok resp → resp.ok = true → env.uploadResult = .ok ur →
        ur.code ≠ 0 →
        downloadAndUploadAsset env settings assetUrl assetIdHint titleHint = none) ∧
    (∀ resp ur, env.fetchResult = .ok resp → resp.ok = true → env.uploadResult = .ok ur →
        ur.code = 0 →
        ur.succMap (assetFileName assetUrl assetIdHint titleHint (assetContentType resp)) =
          none →
        downloadAndUploadAsset env settings assetUrl assetIdHint titleHint = none) ∧
    (∀ resp ur p, env.fetchResult = .ok resp → resp.ok = true → env.uploadResult = .ok ur →
        ur.code = 0 →
        ur.succMap (assetFileName assetUrl assetIdHint titleHint (assetContentType resp)) =
          some p →
        p.data ≠ [] →
        downloadAndUploadAsset env settings assetUrl assetIdHint titleHint = some p) := by
  refine ⟨?_, ?_, ?_, ?_, ?_, ?_, ?_⟩
  · cases h : downloadAndUploadAsset env settings assetUrl assetIdHint titleHint with
    | none => exact Or.inl rfl
    | some p => exact Or.inr ⟨p, rfl⟩
  · intro e hf
    simp [downloadAndUploadAsset, hf]
  · intro resp hf hok
    simp [downloadAndUploadAsset, hf, hok]
  · intro resp e hf hok hu
    simp [downloadAndUploadAsset, hf, hok, hu]
  · intro resp ur hf hok hu hc
    simp [downloadAndUploadAsset, hf, hok, hu, hc]
  · intro resp ur hf hok hu hc hm
    simp [downloadAndUploadAsset, hf, hok, hu, hc, hm]
  · intro resp ur p hf hok hu hc hm hp
    simp [downloadAndUploadAsset, hf, hok, hu, hc, hm, List.isEmpty_iff, hp]

theorem C9_asset_pipeline_never_throws_witness :
    (downloadAndUploadAsset
        { fetchResult := .ok { ok := false, status := 404 } } {}
        "https://api.test/assets/image.png" "asset1" "title" = none) ∧
    (downloadAndUploadAsset
        { fetchResult := .ok { ok := true, status := 200, contentType := some "image/png" },
          uploadResult := .ok { code := 0, succMap := c9SuccMap } } {}
        "https://api.test/assets/image.png" "asset1" "title" =
      some "assets/Karakeep-sync/image.png") :=
  ⟨(C9_asset_pipeline_never_throws
      { fetchResult := .ok { ok := false, status := 404 } } {}
      "https://api.test/assets/image.png" "asset1" "title").2.2.1
      { ok := false, status := 404 } rfl rfl,
   (C9_asset_pipeline_never_throws
      { fetchResult := .ok { ok := true, status := 200, contentType := some "image/png" },
        uploadResult := .ok { code := 0, succMap := c9SuccMap } } {}
      "https://api.test/assets/image.png" "asset1" "title").2.2.2.2.2.2
      { ok := true, status := 200, contentType := some "image/png" }
      { code := 0, succMap := c9SuccMap } "assets/Karakeep-sync/image.png"
      rfl rfl rfl rfl (by decide) (by decide)⟩

/-! ## C6: run-level de-duplication -/

/-- C6: the run maintains a seen-id set across pages: a record whose id
was already processed this run leaves the loop state completely
unchanged (no counter incremented, no processing/store call recorded);
consequently a run whose source returns the same id on two pages has
exactly the same outcome as the run without the duplicated page — the
tally reflects one outcome for that id. -/
theorem C6_seen_id_dedup :
    (∀ (proc : KarakeepBookmark → ProcessResult) (st : SyncState) (bm : KarakeepBookmark),
        st.seen.contains bm.id = true → stepBookmark proc st bm = st) ∧
    (∀ (proc : KarakeepBookmark → ProcessResult) (b1 b2 : KarakeepBookmark) (k nb : String),
        b2.id = b1.id → k.data ≠ [] → nb.data ≠ [] →
        runSyncCycle { apiKey := k, syncNotebookId := some nb,
                       pages := [.ok [b1], .ok [b2]], proc := proc } =
          runSyncCycle { apiKey := k, syncNotebookId := some nb,
                         pages := [.ok [b1]], proc := proc }) := by
  have hstep : ∀ (proc : KarakeepBookmark → ProcessResult) (st : SyncState)
      (bm : KarakeepBookmark), st.seen.contains bm.id = true → stepBookmark proc st bm = st := by
    intro proc st bm h
    simp only [stepBookmark, h]
    simp
  refine ⟨hstep, ?_⟩
  intro proc b1 b2 k nb hid hk hnb
  have hdup : (stepBookmark proc {} b1).seen.contains b2.id = true := by
    simp [stepBookmark, hid]
  simp only [runSyncCycle, runPages, List.foldl]
  rw [hstep proc (stepBookmark proc {} b1) b2 hdup]

theorem C6_seen_id_dedup_witness :
    runSyncCycle { apiKey := "k", syncNotebookId := some "nb",
                   pages := [.ok [c6FirstBookmark], .ok [c6SecondBookmark]],
                   proc := fun _ => { status := .created } } =
      runSyncCycle { apiKey := "k", syncNotebookId := some "nb",
                     pages := [.ok [c6FirstBookmark]],
                     proc := fun _ => { status := .created } } :=
  C6_seen_id_dedup.2 (fun _ => { status := .created }) c6FirstBookmark c6SecondBookmark
    "k" "nb" rfl (by decide) (by decide)

/-! ## C10: the run summary's success flag -/

/-- C10: for every run, the summary's success is true iff no critical
error occurred and the per-record error tally is zero; in particular a
run whose first record errors still processes the remaining records,
still refreshes the last-sync timestamp, and returns success = false
with the error counted. -/
theorem C10_success_iff_no_errors :
    (∀ env : RunEnv,
        (runSyncCycle env).success = true ↔
          ((runSyncCycle env).criticalErrorOccurred = false ∧
           (runSyncCycle env).counts.errors = 0)) ∧
    (runSyncCycle c10Env).success = false ∧
    (runSyncCycle c10Env).counts = { created := 1, errors := 1 } ∧
    (runSyncCycle c10Env).criticalErrorOccurred = false ∧
    (runSyncCycle c10Env).timestampUpdated = true ∧
    (runSyncCycle c10Env).processed = [c10ErrBookmark, c10OkBookmark] := by
  refine ⟨?_, by decide, by decide, by decide, by decide, by decide⟩
  intro env
  by_cases hk : env.apiKey.data.isEmpty
  · simp [runSyncCycle, hk]
  · by_cases hnb : (match env.syncNotebookId with
                    | some nb => nb.data.isEmpty
                    | none => true)
    · simp [runSyncCycle, hk, hnb]
    · cases hrp : runPages env.proc env.pages {} with
      | mk st crit =>
        cases crit with
        | true => simp [runSyncCycle, hk, hnb, hrp]
        | false => simp [runSyncCycle, hk, hnb, hrp]

end KarakeepSync
